import Mathlib

/-!
Verification development for the ai-trading-council acquisition pipeline and
regime/veto decision engine.

The Python sources are shallowly embedded:
* `src/core/regime_guardian.py` — `RegimeGuardian.classify_regime` and
  `RegimeGuardian.should_veto`, as pure functions over the indicator snapshot
  dictionary that the methods read via `dict.get`.  Optional dictionary keys
  become `Option` fields; the `get` defaults are applied at each read site
  exactly as in the source.
* `src/data/data_provider.py` — `DataProvider._check_rate_limit` and
  `DataProvider._fetch_with_cache`, with the wall clock, the Redis cache and
  the Finnhub client made explicit parameters (time is a rational number of
  seconds, the cache an association list of entries with absolute expiry,
  and the upstream client a function from attempt index to outcome).
* `src/data/market_calculator.py` — `MarketCalculator.calculate_macd` and
  `MarketCalculator.calculate_rsi`.  Floating-point special values that the
  RSI arithmetic can produce are modelled by an explicit extended-value type.

Numeric snapshot fields are rationals: the embedded code only compares them,
so ℚ captures the observable behaviour of the Python floats there.
-/

set_option autoImplicit false

/-! ## Snapshot data model (the dict produced by `fetch_market` and read by
`classify_regime` / `should_veto` via `dict.get`) -/

/-- The `ma` sub-dictionary: `ma.get("price_position")`. -/
structure MaData where
  price_position : Option String
deriving DecidableEq

/-- The `bollinger_bands` sub-dictionary: `bollinger.get("bandwidth", …)` and
`bollinger.get("position")`. -/
structure BollingerData where
  bandwidth : Option ℚ
  position : Option String
deriving DecidableEq

/-- The `volume` sub-dictionary: `volume_data.get("liquidity")`. -/
structure VolumeData where
  liquidity : Option String
deriving DecidableEq

/-- An indicator snapshot dictionary.  Every key read through `dict.get` in
`classify_regime` or `should_veto` is a field; a missing key is `none`. -/
structure Snapshot where
  vix : Option ℚ
  adx : Option ℚ
  rsi : Option ℚ
  macd_result : Option ℤ
  ma : Option MaData
  obv_trend : Option String
  bollinger_bands : Option BollingerData
  volume : Option VolumeData
  obv_divergence : Option String
deriving DecidableEq

/-- `ma = data.get("ma", {})` followed by `ma.get("price_position")`. -/
def Snapshot.price_position (d : Snapshot) : Option String :=
  match d.ma with
  | some m => m.price_position
  | none => none

/-- `bollinger = data.get("bollinger_bands", {})` followed by
`bollinger.get("bandwidth", default)`. -/
def Snapshot.bandwidthD (d : Snapshot) (default : ℚ) : ℚ :=
  match d.bollinger_bands with
  | some b => b.bandwidth.getD default
  | none => default

/-- `bollinger = data.get("bollinger_bands", {})` followed by
`bollinger.get("position")`. -/
def Snapshot.bollinger_position (d : Snapshot) : Option String :=
  match d.bollinger_bands with
  | some b => b.position
  | none => none

/-- `volume_data = data.get("volume", {})` followed by
`volume_data.get("liquidity")`. -/
def Snapshot.liquidity (d : Snapshot) : Option String :=
  match d.volume with
  | some v => v.liquidity
  | none => none

/-! ## `RegimeGuardian.classify_regime` (src/core/regime_guardian.py, 47-118)

The method fetches the snapshot for a symbol and then classifies it with the
pure decision list below; we embed that pure classification over the
snapshot. -/

/-- `RegimeGuardian.classify_regime`: the ordered decision list applied to an
indicator snapshot. -/
def classify_regime (d : Snapshot) : String :=
  let vix : ℚ := d.vix.getD 0
  let adx : ℚ := d.adx.getD 0
  let macd_result := d.macd_result
  let price_position := d.price_position
  let obv_trend := d.obv_trend
  let bandwidth : ℚ := d.bandwidthD 100
  -- 1. Check VOLATILITY_SPIKE first (highest priority)
  if vix > 30 then "VOLATILITY_SPIKE"
  -- 2. Check LOW_LIQUIDITY
  else if d.liquidity = some "low" then "LOW_LIQUIDITY"
  -- 3. Check for trends (ADX > 25)
  else if adx > 25 then
    if (macd_result = some 0 ∨ macd_result = some 1)
        ∧ price_position = some "above" ∧ obv_trend = some "bullish" then
      "BULL_TREND"
    else if (macd_result = some 2 ∨ macd_result = some 3)
        ∧ price_position = some "below" ∧ obv_trend = some "bearish" then
      "BEAR_TREND"
    else
      "RANGE_BOUND"
  -- 4. Check STAGNATION (very weak trend + narrow bands)
  else if adx < 15 ∧ bandwidth < 0.05 then "STAGNATION"
  -- 5. Default to RANGE_BOUND
  else "RANGE_BOUND"

/-- The six regime labels of the `MarketRegime` enum. -/
def marketRegimes : List String :=
  ["BULL_TREND", "BEAR_TREND", "VOLATILITY_SPIKE",
   "STAGNATION", "RANGE_BOUND", "LOW_LIQUIDITY"]

/-! ## `RegimeGuardian.should_veto` (src/core/regime_guardian.py, 122-235) -/

/-- The accumulation phase of `should_veto`: the HIGH-priority regime-specific
appends followed by the MEDIUM cross-indicator appends, in source order.
Each conditional `veto_reasons.append(…)` becomes a conditional singleton. -/
def vetoReasons (regime : String) (d : Snapshot) : List String :=
  let rsi : ℚ := d.rsi.getD 50
  let vix : ℚ := d.vix.getD 15
  let adx : ℚ := d.adx.getD 0
  let macd_result := d.macd_result
  (if regime = "BULL_TREND" then
    (if rsi > 75 then ["Severely overbought (RSI > 75)"] else [])
    ++ (if d.obv_divergence = some "bearish" then
          ["Bearish volume divergence - smart money exiting"] else [])
    ++ (if d.bollinger_position = some "far_above"
          ∨ d.bollinger_position = some "above_upper" then
          ["Price overextended above Bollinger upper band"] else [])
    ++ (if vix > 25 then ["VIX elevated despite bullish setup"] else [])
  else if regime = "BEAR_TREND" then
    (if rsi < 25 then ["Severely oversold (RSI < 25)"] else [])
    ++ (if d.obv_divergence = some "bullish" then
          ["Bullish volume divergence - smart money accumulating"] else [])
    ++ (if d.bollinger_position = some "far_below"
          ∨ d.bollinger_position = some "below_lower" then
          ["Price overextended below Bollinger lower band"] else [])
    ++ (if vix > 40 then ["VIX extremely high - panic selling, reversal risk"] else [])
  else if regime = "RANGE_BOUND" then
    (if d.liquidity = some "low" then
          ["Low volume in range - false breakout risk"] else [])
    ++ (if adx > 20 ∧ adx < 25 then
          ["ADX rising - range may be breaking soon"] else [])
    ++ (if d.bandwidthD 1 < 0.05 then
          ["Bollinger bands extremely narrow - breakout imminent"] else [])
  else if regime = "STAGNATION" then
    ["Market stagnant - low profit opportunity"]
  else [])
  ++ (if adx > 25 ∧ macd_result = some 4 then
        ["Trend present but MACD unclear - momentum conflict"] else [])
  ++ (if rsi > 80 then ["RSI extremely overbought (>80)"]
      else if rsi < 20 then ["RSI extremely oversold (<20)"] else [])
  ++ (if vix > 35 then ["VIX very high (>35) - extreme uncertainty"] else [])

/-- `should_veto` with the reasons kept as the accumulated list (the
`VetoDecision` of the spec's data model): the three CRITICAL early returns in
source order, then the accumulation, then the final severity computation. -/
def should_veto_decision (regime : String) (d : Snapshot) :
    Bool × List String × Option String :=
  if regime = "VOLATILITY_SPIKE" then
    (true, ["Market volatility too high (VIX > 30)"], some "CRITICAL")
  else if regime = "LOW_LIQUIDITY" then
    (true, ["Insufficient market liquidity"], some "CRITICAL")
  else if d.liquidity = some "low" then
    (true, ["Low trading volume detected"], some "CRITICAL")
  else
    let rs := vetoReasons regime d
    if rs = [] then (false, [], none)
    else (true, rs, some (if 1 < rs.length then "HIGH" else "MEDIUM"))

/-- `RegimeGuardian.should_veto`: the tuple the Python method returns, with the
accumulated reasons joined by `"; "` (`"; ".join(veto_reasons)`).  The
`symbol` parameter is unused, exactly as in the source. -/
def should_veto (symbol regime : String) (d : Snapshot) :
    Bool × Option String × Option String :=
  match should_veto_decision regime d with
  | (v, rs, s) =>
    (v, if rs = [] then none else some (String.intercalate "; " rs), s)

/-! ## Alignment predicates of classification rule 3 (the conjunctions tested
inside the `adx > 25` branch of `classify_regime`) -/

/-- Bullish alignment: MACD result strong-bullish or bullish, price above the
moving average, OBV trend bullish. -/
def bullishAligned (d : Snapshot) : Prop :=
  (d.macd_result = some 0 ∨ d.macd_result = some 1)
  ∧ d.price_position = some "above" ∧ d.obv_trend = some "bullish"

/-- Bearish alignment: MACD result strong-bearish or bearish, price below the
moving average, OBV trend bearish. -/
def bearishAligned (d : Snapshot) : Prop :=
  (d.macd_result = some 2 ∨ d.macd_result = some 3)
  ∧ d.price_position = some "below" ∧ d.obv_trend = some "bearish"

instance (d : Snapshot) : Decidable (bullishAligned d) := by
  unfold bullishAligned; infer_instance

instance (d : Snapshot) : Decidable (bearishAligned d) := by
  unfold bearishAligned; infer_instance

/-- A snapshot whose VIX proxy exceeds 30 while every trend rule would also
fire (bullish alignment with strong ADX). -/
def spikeSnap : Snapshot :=
  ⟨some 35, some 30, some 50, some 0, some ⟨some "above"⟩, some "bullish",
   some ⟨some 1, some "neutral"⟩, some ⟨some "normal"⟩, none⟩

/-- A non-critical bear snapshot with two accumulated reasons (used to witness
the severity characterization). -/
def bearRsi19 : Snapshot :=
  ⟨some 15, some 0, some 19, none, none, none,
   some ⟨some 1, some "neutral"⟩, some ⟨some "normal"⟩, none⟩

/-- A VOLATILITY_SPIKE snapshot that also has low volume liquidity. -/
def lowLiqSpikeSnap : Snapshot :=
  ⟨some 35, some 0, some 50, none, none, none,
   some ⟨some 1, some "neutral"⟩, some ⟨some "low"⟩, none⟩

/-! ## C7: the BEAR_TREND / oversold end-to-end scenario

At RSI exactly 20 the MEDIUM extreme-reading check `rsi < 20` is strict and
does not fire, so only the HIGH-tier `rsi < 25` reason accumulates. -/

/-- The claim's snapshot: regime BEAR_TREND, RSI exactly 20, every other
field neutral (normal liquidity, no OBV divergence, neutral Bollinger
position, VIX 15, ADX 0). -/
def bearRsi20 : Snapshot :=
  ⟨some 15, some 0, some 20, none, none, none,
   some ⟨some 1, some "neutral"⟩, some ⟨some "normal"⟩, none⟩

/-! ## `DataProvider._check_rate_limit` (src/data/data_provider.py, 339-361)

The wall clock is explicit: `now` is the value of the first `time.time()`
call.  `time.sleep(wait_time)` advances the clock by `wait_time`, so the
final `self.api_call_times.append(time.time())` appends `now` plus the slept
duration.  The deque has `maxlen = requests_per_minute`, so an append to a
full deque evicts the leftmost entry. -/

/-- `_check_rate_limit` as a function of the configured limit `n`
(`requests_per_minute`), the current window (`api_call_times`, oldest first)
and the clock.  Returns the new window, the duration slept, and the number of
`rate_limit_waits` increments (0 or 1). -/
def check_rate_limit (n : ℕ) (window : List ℚ) (now : ℚ) :
    List ℚ × ℚ × ℕ :=
  -- Clean up old timestamps (older than 60 seconds)
  let pruned := window.dropWhile (fun t => decide (now - t > 60))
  -- Check if we're at the limit; `wait_time = 60 - (now - oldest)` and the
  -- sleep happens only when it is positive
  let slept : ℚ :=
    if n ≤ pruned.length ∧ 0 < 60 - (now - pruned.headD 0)
    then 60 - (now - pruned.headD 0) else 0
  let waits : ℕ :=
    if n ≤ pruned.length ∧ 0 < 60 - (now - pruned.headD 0) then 1 else 0
  -- Add current call timestamp (deque with maxlen = n)
  let appended := pruned ++ [now + slept]
  (if n < appended.length then appended.drop (appended.length - n)
   else appended, slept, waits)

/-! ## `DataProvider._fetch_with_cache` (src/data/data_provider.py, 255-337)

External collaborators are explicit:
* the Redis cache is an association list of `(key, value, expiry)` entries,
  newest first; `CacheManager.get` returns the value of the first unexpired
  matching entry and `CacheManager.set` with TTL `ttl` prepends an entry
  expiring at `now + ttl`;
* the Finnhub client is a function from the attempt index to the outcome of
  that attempt (`fetch_func` is called once per loop iteration);
* the `errors` statistics dictionary and logging are not modelled; sleeps
  inside the retry loop do not shift the expiry assigned by `cache.set`
  (irrelevant for the cached data classes, whose TTLs are ≥ 86400 s).
-/

/-- Outcome of one invocation of the wrapped `fetch_func`: success, a
`finnhub.FinnhubAPIException` carrying an optional `status_code`, or any
other (network) exception. -/
inductive FetchOutcome (α : Type) where
  | ok (v : α)
  | apiErr (code : Option ℤ)
  | netErr
deriving DecidableEq

/-- Classified exception propagated out of `_fetch_with_cache`. -/
inductive FetchErr where
  | authError
  | apiError (code : Option ℤ)
  | networkError
  | exhausted
deriving DecidableEq

/-- State of a `DataProvider`: the cache plus the rate window and the
statistics counters touched by `_fetch_with_cache`. -/
structure DPState (α : Type) where
  cache : List (String × α × ℚ)
  window : List ℚ
  api_calls : ℕ
  cache_hits : ℕ
  cache_misses : ℕ
  rate_limit_waits : ℕ
deriving DecidableEq

/-- `CacheManager.get`: first unexpired entry under the key, if any. -/
def cacheGet {α : Type} (cache : List (String × α × ℚ)) (key : String)
    (now : ℚ) : Option α :=
  match cache.find? (fun e => decide (e.1 = key ∧ now < e.2.2)) with
  | some e => some e.2.1
  | none => none

/-- `CacheManager.set` with TTL: prepend an entry expiring at `now + ttl`. -/
def cacheSet {α : Type} (cache : List (String × α × ℚ)) (key : String)
    (v : α) (ttl : ℕ) (now : ℚ) : List (String × α × ℚ) :=
  (key, v, now + ttl) :: cache

/-- Observable result of one `_fetch_with_cache` call: the returned value or
propagated exception, the new provider state, how many times `fetch_func`
ran, and whether `_check_rate_limit` was invoked. -/
structure FetchResult (α : Type) where
  result : Except FetchErr (Option α)
  state : DPState α
  invocations : ℕ
  rateLimited : Bool

/-- The `while retry_count < max_retries` loop of `_fetch_with_cache`:
`start` is the index of the next `fetch_func` invocation and `fuel` the
remaining retry budget (`max_retries - retry_count`, initially 3).  Returns
the loop's outcome together with the number of `fetch_func` invocations.
The error classification follows the source order: 429 retries, 500/503
retry, 401 raises, 404 returns `None`, anything else raises; exhausting the
budget raises the fetch-exhausted failure. -/
def retryLoop {α : Type} (fetch_func : ℕ → FetchOutcome α) :
    ℕ → ℕ → Except FetchErr (Option α) × ℕ
  | _, 0 => (Except.error FetchErr.exhausted, 0)
  | start, fuel + 1 =>
    match fetch_func start with
    | FetchOutcome.ok v => (Except.ok (some v), 1)
    | FetchOutcome.apiErr c =>
      if c = some 429 then
        ((retryLoop fetch_func (start + 1) fuel).1,
         (retryLoop fetch_func (start + 1) fuel).2 + 1)
      else if c = some 500 ∨ c = some 503 then
        ((retryLoop fetch_func (start + 1) fuel).1,
         (retryLoop fetch_func (start + 1) fuel).2 + 1)
      else if c = some 401 then (Except.error FetchErr.authError, 1)
      else if c = some 404 then (Except.ok none, 1)
      else (Except.error (FetchErr.apiError c), 1)
    | FetchOutcome.netErr => (Except.error FetchErr.networkError, 1)

/-- The part of `_fetch_with_cache` after the cache check: rate limit, retry
loop, and on success caching (if `ttl > 0`) plus the `api_calls` increment.
A 404 (`return None`) caches nothing and counts no API call, exactly as the
early `return None` in the source. -/
def fetch_with_cache_miss {α : Type} (n : ℕ) (cache_key : String)
    (fetch_func : ℕ → FetchOutcome α) (ttl : ℕ) (now : ℚ) (st : DPState α) :
    FetchResult α :=
  -- Rate limit check
  let rl := check_rate_limit n st.window now
  let st1 : DPState α :=
    { st with window := rl.1,
              rate_limit_waits := st.rate_limit_waits + rl.2.2 }
  -- Fetch from API with retry logic
  let r := retryLoop fetch_func 0 3
  match r.1 with
  | Except.ok (some data) =>
    ⟨Except.ok (some data),
     { st1 with
        cache := if 0 < ttl then cacheSet st1.cache cache_key data ttl now
                 else st1.cache,
        api_calls := st1.api_calls + 1 },
     r.2, true⟩
  | Except.ok none => ⟨Except.ok none, st1, r.2, true⟩
  | Except.error e => ⟨Except.error e, st1, r.2, true⟩

/-- `DataProvider._fetch_with_cache`: cache-aside check (only when
`ttl > 0`), then the rate-limited, retried fetch. -/
def fetch_with_cache {α : Type} (n : ℕ) (cache_key : String)
    (fetch_func : ℕ → FetchOutcome α) (ttl : ℕ) (now : ℚ) (st : DPState α) :
    FetchResult α :=
  if 0 < ttl then
    match cacheGet st.cache cache_key now with
    | some cached =>
      ⟨Except.ok (some cached), { st with cache_hits := st.cache_hits + 1 },
       0, false⟩
    | none =>
      fetch_with_cache_miss n cache_key fetch_func ttl now
        { st with cache_misses := st.cache_misses + 1 }
  else fetch_with_cache_miss n cache_key fetch_func ttl now st

/-- The initial provider state: empty cache, empty rate window, zeroed
statistics. -/
def initState (α : Type) : DPState α := ⟨[], [], 0, 0, 0, 0⟩

/-! ## `MarketCalculator.calculate_macd` (src/data/market_calculator.py,
170-218)

The `ta.trend.MACD` indicator is an external library: `lib` maps the close
series to the last-row macd, signal and histogram readings, with `none`
standing for a NaN intermediate result (`pd.isna`). -/

/-- The dictionary returned by `calculate_macd`. -/
structure MacdOut where
  macd : ℚ
  signal : ℚ
  histogram : ℚ
deriving DecidableEq

/-- `MarketCalculator.calculate_macd`: the short-history default and the NaN
coercion around the library computation. -/
def calculate_macd (close : List ℚ)
    (lib : List ℚ → Option ℚ × Option ℚ × Option ℚ) : MacdOut :=
  let short_period := 12
  let long_period := 26
  let signal_period := 9
  let calc_period := short_period + long_period + signal_period
  if close.length < calc_period then ⟨0, 0, 0⟩
  else
    let macd := (lib close).1
    let signal_line := (lib close).2.1
    let histogram := (lib close).2.2
    -- Handle NaN
    ⟨macd.getD 0, signal_line.getD 0, histogram.getD 0⟩

/-! ## `MarketCalculator.calculate_rsi` (src/data/market_calculator.py,
148-168)

`rs = gain / loss` and `rsi = 100 - (100 / (1 + rs))` are numpy float
operations, so a zero 14-period average loss produces `inf` (when the average
gain is positive) or `NaN` (when it is zero, the 0/0 case); neither is
special-cased by the source.  The possible extended values are modelled
explicitly.  `close.diff()` makes the first entry of the delta series NaN,
but `delta.where(delta > 0, 0)` and `-delta.where(delta < 0, 0)` replace it
by 0 in the gain and loss series, since NaN comparisons are false.  The
rolling(period) means at the last index are NaN while fewer than `period`
observations exist (pandas raises on an empty history; the claims below only
use nonempty series). -/

/-- A float produced by the RSI arithmetic: a real (rational) number,
positive or negative infinity, or NaN. -/
inductive EF where
  | num (q : ℚ)
  | posInf
  | negInf
  | nan
deriving DecidableEq

/-- IEEE float division of finite values: `0 / 0` is NaN, `a / 0` for
nonzero `a` is a signed infinity, otherwise the exact quotient. -/
def efDiv (a b : ℚ) : EF :=
  if b = 0 then
    if a = 0 then EF.nan
    else if 0 < a then EF.posInf
    else EF.negInf
  else EF.num (a / b)

/-- `rsi = 100 - (100 / (1 + rs))` in IEEE float arithmetic: NaN propagates;
`rs = +inf` gives `100 - 0 = 100`; `rs = -inf` gives `100 - (-0) = 100`;
`1 + rs = 0` gives `100 - inf = -inf`. -/
def rsiOfRs : EF → EF
  | EF.nan => EF.nan
  | EF.posInf => EF.num 100
  | EF.negInf => EF.num 100
  | EF.num q =>
    if 1 + q = 0 then EF.negInf
    else EF.num (100 - 100 / (1 + q))

/-- The finite entries of `close.diff()`: consecutive differences. -/
def diffs (close : List ℚ) : List ℚ :=
  (close.zip close.tail).map (fun p => p.2 - p.1)

/-- `MarketCalculator.calculate_rsi` at the final index (`rsi.iloc[-1]`). -/
def calculate_rsi (close : List ℚ) (period : ℕ := 14) : EF :=
  let deltas := diffs close
  -- gain = delta.where(delta > 0, 0); its first entry (NaN in delta) is 0
  let gain := 0 :: deltas.map (fun x => if 0 < x then x else 0)
  -- loss = -delta.where(delta < 0, 0)
  let loss := 0 :: deltas.map (fun x => if x < 0 then -x else 0)
  if close.length < period then EF.nan
  else
    let avgGain := (gain.drop (close.length - period)).sum / (period : ℚ)
    let avgLoss := (loss.drop (close.length - period)).sum / (period : ℚ)
    rsiOfRs (efDiv avgGain avgLoss)

/-- C1: `classify_regime` is a total deterministic function into the six
enumerated regimes.  It evaluates the five rules as an ordered decision list,
first match wins: VIX > 30 gives VOLATILITY_SPIKE regardless of every other
field; otherwise low liquidity gives LOW_LIQUIDITY; otherwise ADX > 25 gives
BULL_TREND on bullish alignment, else BEAR_TREND on bearish alignment, else
RANGE_BOUND; otherwise ADX < 15 with Bollinger bandwidth < 0.05 gives
STAGNATION; otherwise RANGE_BOUND. -/
theorem classify_regime_decision_list (d : Snapshot) :
    classify_regime d ∈ marketRegimes
    ∧ (30 < d.vix.getD 0 → classify_regime d = "VOLATILITY_SPIKE")
    ∧ (d.vix.getD 0 ≤ 30 → d.liquidity = some "low" →
        classify_regime d = "LOW_LIQUIDITY")
    ∧ (d.vix.getD 0 ≤ 30 → d.liquidity ≠ some "low" → 25 < d.adx.getD 0 →
        (bullishAligned d → classify_regime d = "BULL_TREND")
        ∧ (¬ bullishAligned d → bearishAligned d →
            classify_regime d = "BEAR_TREND")
        ∧ (¬ bullishAligned d → ¬ bearishAligned d →
            classify_regime d = "RANGE_BOUND"))
    ∧ (d.vix.getD 0 ≤ 30 → d.liquidity ≠ some "low" → d.adx.getD 0 ≤ 25 →
        d.adx.getD 0 < 15 ∧ d.bandwidthD 100 < 0.05 →
        classify_regime d = "STAGNATION")
    ∧ (d.vix.getD 0 ≤ 30 → d.liquidity ≠ some "low" → d.adx.getD 0 ≤ 25 →
        ¬ (d.adx.getD 0 < 15 ∧ d.bandwidthD 100 < 0.05) →
        classify_regime d = "RANGE_BOUND") := by
  unfold classify_regime bullishAligned bearishAligned
  dsimp only
  refine ⟨?_, ?_, ?_, ?_, ?_, ?_⟩
  · split_ifs <;> decide
  · intro h; simp [h]
  · intro h hl; simp [not_lt.mpr h, hl]
  · intro h hl ha
    refine ⟨fun hb => ?_, fun hnb hbe => ?_, fun hnb hnbe => ?_⟩ <;>
      simp [not_lt.mpr h, hl, ha, *]
  · intro h hl ha hs
    simp [not_lt.mpr h, hl, not_lt.mpr ha, hs]
  · intro h hl ha hs
    simp [not_lt.mpr h, hl, not_lt.mpr ha, hs]

theorem classify_regime_decision_list_witness :
    30 < spikeSnap.vix.getD 0 ∧ classify_regime spikeSnap = "VOLATILITY_SPIKE" :=
  ⟨by decide, (classify_regime_decision_list spikeSnap).2.1 (by decide)⟩

/-- C2: the veto decision tuple satisfies the severity invariant: no veto iff
null severity iff no accumulated reasons; and away from the CRITICAL
short-circuits, severity is HIGH exactly when more than one reason accumulated
and MEDIUM exactly when exactly one did. -/
theorem should_veto_severity_invariant (symbol regime : String) (d : Snapshot) :
    ((should_veto symbol regime d).1 = false ↔
      (should_veto symbol regime d).2.2 = none)
    ∧ ((should_veto symbol regime d).2.2 = none ↔
      (should_veto_decision regime d).2.1 = [])
    ∧ ((should_veto symbol regime d).2.1 = none ↔
      (should_veto_decision regime d).2.1 = [])
    ∧ (regime ≠ "VOLATILITY_SPIKE" → regime ≠ "LOW_LIQUIDITY" →
        d.liquidity ≠ some "low" →
        ((should_veto symbol regime d).2.2 = some "HIGH" ↔
          1 < (vetoReasons regime d).length)
        ∧ ((should_veto symbol regime d).2.2 = some "MEDIUM" ↔
          (vetoReasons regime d).length = 1)) := by
  unfold should_veto should_veto_decision
  by_cases h1 : regime = "VOLATILITY_SPIKE"
  · simp [h1]
  by_cases h2 : regime = "LOW_LIQUIDITY"
  · simp [h1, h2]
  by_cases h3 : d.liquidity = some "low"
  · simp [h1, h2, h3]
  by_cases h4 : vetoReasons regime d = []
  · simp [h1, h2, h3, h4]
  · have hlen : 0 < (vetoReasons regime d).length := List.length_pos.mpr h4
    by_cases h5 : 1 < (vetoReasons regime d).length
    · simp [h1, h2, h3, h4, h5]
      omega
    · simp [h1, h2, h3, h4, h5]
      omega

theorem should_veto_severity_invariant_witness :
    ((should_veto "AMZN" "BEAR_TREND" bearRsi19).2.2 = some "HIGH" ↔
      1 < (vetoReasons "BEAR_TREND" bearRsi19).length)
    ∧ ((should_veto "AMZN" "BEAR_TREND" bearRsi19).2.2 = some "MEDIUM" ↔
      (vetoReasons "BEAR_TREND" bearRsi19).length = 1) :=
  (should_veto_severity_invariant "AMZN" "BEAR_TREND" bearRsi19).2.2.2
    (by decide) (by decide) (by decide)

/-- C3: the three CRITICAL conditions (regime VOLATILITY_SPIKE, regime
LOW_LIQUIDITY, or low volume liquidity — the latter independent of the
regime) short-circuit `should_veto` to a veto with exactly one reason and
severity CRITICAL; the HIGH/MEDIUM accumulation is never reached. -/
theorem should_veto_critical_short_circuit (symbol regime : String)
    (d : Snapshot)
    (h : regime = "VOLATILITY_SPIKE" ∨ regime = "LOW_LIQUIDITY"
      ∨ d.liquidity = some "low") :
    (should_veto symbol regime d).1 = true
    ∧ (should_veto symbol regime d).2.2 = some "CRITICAL"
    ∧ (should_veto_decision regime d).2.1.length = 1 := by
  unfold should_veto should_veto_decision
  by_cases h1 : regime = "VOLATILITY_SPIKE"
  · simp [h1]
  by_cases h2 : regime = "LOW_LIQUIDITY"
  · simp [h1, h2]
  have h3 : d.liquidity = some "low" := by tauto
  simp [h1, h2, h3]

theorem should_veto_critical_short_circuit_witness :
    (should_veto "AMZN" "VOLATILITY_SPIKE" lowLiqSpikeSnap).1 = true
    ∧ (should_veto "AMZN" "VOLATILITY_SPIKE" lowLiqSpikeSnap).2.2
        = some "CRITICAL"
    ∧ (should_veto_decision "VOLATILITY_SPIKE" lowLiqSpikeSnap).2.1.length
        = 1 :=
  should_veto_critical_short_circuit "AMZN" "VOLATILITY_SPIKE" lowLiqSpikeSnap
    (Or.inl rfl)

/-- C10: the reason string of the RANGE_BOUND low-liquidity re-check never
occurs in a returned veto decision: whenever the snapshot's volume liquidity
is "low", `should_veto` has already returned the CRITICAL low-volume veto
before the regime-specific tier runs, so the branch is unreachable. -/
theorem range_liquidity_reason_unreachable (regime : String) (d : Snapshot) :
    "Low volume in range - false breakout risk"
      ∉ (should_veto_decision regime d).2.1 := by
  unfold should_veto_decision
  by_cases h1 : regime = "VOLATILITY_SPIKE"
  · simp [h1]
  by_cases h2 : regime = "LOW_LIQUIDITY"
  · simp [h1, h2]
  by_cases h3 : d.liquidity = some "low"
  · simp [h1, h2, h3]
  by_cases h4 : vetoReasons regime d = []
  · simp [h1, h2, h3, h4]
  · have hmem : "Low volume in range - false breakout risk"
        ∉ vetoReasons regime d := by
      unfold vetoReasons
      dsimp only
      split_ifs <;>
        first
        | exact absurd ‹d.liquidity = some "low"› h3
        | decide
    simp [h1, h2, h3, h4, hmem]

/-- C7 counterexample: on the claimed snapshot (regime BEAR_TREND, RSI
exactly 20, all else neutral) the code accumulates only the "severely
oversold" reason — the "RSI extremely oversold" check is strict (`rsi < 20`)
and does not fire — so the decision is a single-reason MEDIUM veto, not the
claimed two-reason HIGH veto. -/
theorem bear_rsi20_single_reason_counterexample :
    should_veto "AMZN" "BEAR_TREND" bearRsi20
      = (true, some "Severely oversold (RSI < 25)", some "MEDIUM")
    ∧ (should_veto_decision "BEAR_TREND" bearRsi20).2.1
      = ["Severely oversold (RSI < 25)"]
    ∧ "RSI extremely oversold (<20)"
      ∉ (should_veto_decision "BEAR_TREND" bearRsi20).2.1
    ∧ (should_veto "AMZN" "BEAR_TREND" bearRsi20).2.2 ≠ some "HIGH" := by
  refine ⟨by decide, by decide, by decide, by decide⟩

/-- C7 amended: for a snapshot with regime BEAR_TREND and RSI strictly below
20, all other fields neutral, `should_veto` returns a veto whose reasons are
exactly the "severely oversold" (RSI < 25) reason followed by the "RSI
extremely oversold" reason, with severity HIGH from the 2 accumulated
reasons. -/
theorem should_veto_bear_oversold (symbol : String) (d : Snapshot)
    (hrsi : d.rsi.getD 50 < 20)
    (hliq : d.liquidity = some "normal")
    (hdiv : d.obv_divergence = none)
    (hpos : d.bollinger_position = some "neutral")
    (hvix : d.vix.getD 15 ≤ 35)
    (hadx : d.adx.getD 0 ≤ 25) :
    should_veto_decision "BEAR_TREND" d
      = (true, ["Severely oversold (RSI < 25)", "RSI extremely oversold (<20)"],
         some "HIGH")
    ∧ should_veto symbol "BEAR_TREND" d
      = (true,
         some "Severely oversold (RSI < 25); RSI extremely oversold (<20)",
         some "HIGH") := by
  have h25 : d.rsi.getD 50 < 25 := lt_trans hrsi (by norm_num)
  have h80 : ¬ d.rsi.getD 50 > 80 := by linarith
  have h40 : ¬ d.vix.getD 15 > 40 := by linarith
  have h35 : ¬ d.vix.getD 15 > 35 := by linarith
  have hadx' : ¬ (d.adx.getD 0 > 25 ∧ d.macd_result = some 4) := by
    rintro ⟨ha, -⟩; linarith
  have hrs : vetoReasons "BEAR_TREND" d
      = ["Severely oversold (RSI < 25)", "RSI extremely oversold (<20)"] := by
    unfold vetoReasons
    dsimp only
    rw [if_neg (by decide), if_pos rfl, if_pos h25, if_neg (by simp [hdiv]),
      if_neg (by simp [hpos]), if_neg h40, if_neg hadx', if_neg h80,
      if_pos hrsi, if_neg h35]
    rfl
  have hl : ¬ d.liquidity = some "low" := by simp [hliq]
  constructor
  · unfold should_veto_decision
    rw [if_neg (by decide), if_neg (by decide), if_neg hl, hrs]
    rfl
  · unfold should_veto should_veto_decision
    rw [if_neg (by decide), if_neg (by decide), if_neg hl, hrs]
    rfl

theorem should_veto_bear_oversold_witness :
    should_veto_decision "BEAR_TREND" bearRsi19
      = (true, ["Severely oversold (RSI < 25)", "RSI extremely oversold (<20)"],
         some "HIGH")
    ∧ should_veto "AMZN" "BEAR_TREND" bearRsi19
      = (true,
         some "Severely oversold (RSI < 25); RSI extremely oversold (<20)",
         some "HIGH") :=
  should_veto_bear_oversold "AMZN" bearRsi19 (by decide) (by decide)
    (by decide) (by decide) (by decide) (by decide)

/-- C4: the sliding-window rate limiter prunes timestamps older than 60
seconds from the front, then — if the window is at the configured capacity —
waits `60 - (now - oldest)` when that is positive and counts exactly one
rate-limit wait, and in every case appends the current time afterwards.
Consequently a call made when the window already holds `n` timestamps all
within the last 60 seconds blocks for exactly `60 - (now - oldest)`, a
positive duration of at most 60 seconds, and a call made after the whole
window has elapsed proceeds without waiting. -/
theorem check_rate_limit_spec (n : ℕ) (window : List ℚ) (now : ℚ)
    (hn : 1 ≤ n) (hbound : ∀ t ∈ window, t ≤ now) :
    (∀ pruned, pruned = window.dropWhile (fun t => decide (now - t > 60)) →
      -- below capacity: no wait, no counter increment
      (pruned.length < n →
        (check_rate_limit n window now).2.1 = 0
        ∧ (check_rate_limit n window now).2.2 = 0)
      -- at capacity with a positive wait: sleep exactly that long, count once
      ∧ (n ≤ pruned.length → 0 < 60 - (now - pruned.headD 0) →
        (check_rate_limit n window now).2.1 = 60 - (now - pruned.headD 0)
        ∧ (check_rate_limit n window now).2.2 = 1))
    -- the current time (advanced by the slept duration) is appended
    ∧ (check_rate_limit n window now).1.getLast? =
        some (now + (check_rate_limit n window now).2.1)
    -- (n+1)th call within 60 seconds: blocks for 60 - elapsed ∈ (0, 60]
    ∧ (window.length = n → (∀ t ∈ window, now - t < 60) →
        (check_rate_limit n window now).2.1 = 60 - (now - window.headD 0)
        ∧ 0 < (check_rate_limit n window now).2.1
        ∧ (check_rate_limit n window now).2.1 ≤ 60
        ∧ (check_rate_limit n window now).2.2 = 1)
    -- window fully elapsed: no wait
    ∧ ((∀ t ∈ window, now - t > 60) →
        (check_rate_limit n window now).2.1 = 0
        ∧ (check_rate_limit n window now).2.2 = 0) := by
  unfold check_rate_limit
  dsimp only
  refine ⟨?_, ?_, ?_, ?_⟩
  · rintro pruned rfl
    constructor
    · intro hlt
      rw [if_neg (by rintro ⟨h, -⟩; omega), if_neg (by rintro ⟨h, -⟩; omega)]
      exact ⟨rfl, rfl⟩
    · intro hge hw
      rw [if_pos ⟨hge, hw⟩, if_pos ⟨hge, hw⟩]
      exact ⟨rfl, rfl⟩
  · have key : ∀ (p : List ℚ) (x : ℚ),
        (if n < (p ++ [x]).length
          then (p ++ [x]).drop ((p ++ [x]).length - n)
          else (p ++ [x])).getLast? = some x := by
      intro p x
      split_ifs with h
      · rw [List.drop_append_of_le_length (by simp at h ⊢; omega)]
        exact List.getLast?_concat _
      · exact List.getLast?_concat _
    exact key _ _
  · intro hlen hrecent
    have hpruned : window.dropWhile (fun t => decide (now - t > 60)) = window := by
      cases window with
      | nil => rfl
      | cons t ts =>
        rw [List.dropWhile_cons_of_neg]
        simp only [decide_eq_true_eq, not_lt]
        have := hrecent t (by simp)
        linarith
    have hhead : 0 ≤ now - window.headD 0 := by
      cases window with
      | nil => simp at hlen; omega
      | cons t ts =>
        have := hbound t (by simp)
        simp only [List.headD_cons]
        linarith
    have hw : 0 < 60 - (now - window.headD 0) := by
      cases window with
      | nil => simp at hlen; omega
      | cons t ts =>
        have := hrecent t (by simp)
        simp only [List.headD_cons]
        linarith
    rw [hpruned, if_pos ⟨by omega, hw⟩, if_pos ⟨by omega, hw⟩]
    refine ⟨rfl, hw, by linarith, rfl⟩
  · intro hold
    have hpruned : window.dropWhile (fun t => decide (now - t > 60)) = [] :=
      List.dropWhile_eq_nil_iff.mpr (fun t ht => by simpa using hold t ht)
    rw [hpruned]
    rw [if_neg (by rintro ⟨h, -⟩; simp at h; omega),
      if_neg (by rintro ⟨h, -⟩; simp at h; omega)]
    exact ⟨rfl, rfl⟩

theorem check_rate_limit_spec_witness :
    (check_rate_limit 2 [0, 10] 30).2.1 = 60 - (30 - ([0, 10] : List ℚ).headD 0)
    ∧ 0 < (check_rate_limit 2 [0, 10] 30).2.1
    ∧ (check_rate_limit 2 [0, 10] 30).2.1 ≤ 60
    ∧ (check_rate_limit 2 [0, 10] 30).2.2 = 1 :=
  (check_rate_limit_spec 2 [0, 10] 30 (by decide)
    (by intro t ht; fin_cases ht <;> norm_num)).2.2.1
    (by decide) (by intro t ht; fin_cases ht <;> norm_num)

/-- A freshly stored entry is returned by `cacheGet` until its expiry. -/
theorem cacheGet_set_fresh {α : Type} (c : List (String × α × ℚ))
    (key : String) (v : α) (ttl : ℕ) (now now2 : ℚ) (h : now2 < now + ttl) :
    cacheGet (cacheSet c key v ttl now) key now2 = some v := by
  unfold cacheGet cacheSet
  rw [List.find?_cons_of_pos _ (by simp [h])]

/-- The result and invocation count of the miss path are those of the retry
loop, whatever the state. -/
theorem fetch_with_cache_miss_proj {α : Type} (n : ℕ) (key : String)
    (f : ℕ → FetchOutcome α) (ttl : ℕ) (now : ℚ) (st : DPState α) :
    (fetch_with_cache_miss n key f ttl now st).result = (retryLoop f 0 3).1
    ∧ (fetch_with_cache_miss n key f ttl now st).invocations
        = (retryLoop f 0 3).2 := by
  unfold fetch_with_cache_miss
  dsimp only
  constructor <;> (split <;> simp [*])

/-- When the retry loop does not return data (404 or a raised error), the
miss path leaves the cache untouched. -/
theorem fetch_with_cache_miss_cache {α : Type} (n : ℕ) (key : String)
    (f : ℕ → FetchOutcome α) (ttl : ℕ) (now : ℚ) (st : DPState α)
    (h : ∀ v, (retryLoop f 0 3).1 ≠ Except.ok (some v)) :
    (fetch_with_cache_miss n key f ttl now st).state.cache = st.cache := by
  unfold fetch_with_cache_miss
  dsimp only
  split
  · exact absurd (by assumption) (h _)
  · rfl
  · rfl

/-- C5: cache-aside.  With `ttl > 0`: on a hit the cached value is returned,
the hit counter is incremented, and neither the rate limiter nor the upstream
fetcher runs; on a miss the miss counter is incremented, the rate limiter
runs, the fetcher runs exactly once (when its first attempt succeeds), and
the result is stored under the TTL.  Consequently two calls in immediate
succession with the same key invoke the fetcher exactly once and the second
call is a cache hit. -/
theorem fetch_with_cache_cache_aside {α : Type} (n : ℕ) (key : String)
    (f : ℕ → FetchOutcome α) (ttl : ℕ) (now now2 : ℚ) (st : DPState α)
    (httl : 0 < ttl) :
    (∀ v, cacheGet st.cache key now = some v →
      fetch_with_cache n key f ttl now st
        = ⟨Except.ok (some v), { st with cache_hits := st.cache_hits + 1 },
           0, false⟩)
    ∧ (∀ v, cacheGet st.cache key now = none → f 0 = FetchOutcome.ok v →
        now2 < now + ttl →
        (fetch_with_cache n key f ttl now st).result = Except.ok (some v)
        ∧ (fetch_with_cache n key f ttl now st).invocations = 1
        ∧ (fetch_with_cache n key f ttl now st).rateLimited = true
        ∧ (fetch_with_cache n key f ttl now st).state.cache_misses
            = st.cache_misses + 1
        ∧ cacheGet (fetch_with_cache n key f ttl now st).state.cache key now2
            = some v)
    ∧ (∀ v, cacheGet st.cache key now = none → f 0 = FetchOutcome.ok v →
        now2 < now + ttl →
        (fetch_with_cache n key f ttl now2
            (fetch_with_cache n key f ttl now st).state).result
          = Except.ok (some v)
        ∧ (fetch_with_cache n key f ttl now2
            (fetch_with_cache n key f ttl now st).state).invocations = 0
        ∧ (fetch_with_cache n key f ttl now2
            (fetch_with_cache n key f ttl now st).state).rateLimited = false
        ∧ (fetch_with_cache n key f ttl now2
            (fetch_with_cache n key f ttl now st).state).state.cache_hits
          = (fetch_with_cache n key f ttl now st).state.cache_hits + 1) := by
  have hit : ∀ (st' : DPState α) (t : ℚ) (v : α),
      cacheGet st'.cache key t = some v →
      fetch_with_cache n key f ttl t st'
        = ⟨Except.ok (some v), { st' with cache_hits := st'.cache_hits + 1 },
           0, false⟩ := by
    intro st' t v hv
    unfold fetch_with_cache
    rw [if_pos httl, hv]
  have miss : ∀ (v : α), cacheGet st.cache key now = none →
      f 0 = FetchOutcome.ok v →
      fetch_with_cache n key f ttl now st
        = ⟨Except.ok (some v),
           { cache := cacheSet st.cache key v ttl now,
             window := (check_rate_limit n st.window now).1,
             api_calls := st.api_calls + 1,
             cache_hits := st.cache_hits,
             cache_misses := st.cache_misses + 1,
             rate_limit_waits :=
               st.rate_limit_waits + (check_rate_limit n st.window now).2.2 },
           1, true⟩ := by
    intro v hv hf
    have hr : retryLoop f 0 3 = (Except.ok (some v), 1) := by
      simp [retryLoop, hf]
    unfold fetch_with_cache fetch_with_cache_miss
    rw [if_pos httl, hv]
    dsimp only
    rw [hr]
    dsimp only
    rw [if_pos httl]
  refine ⟨fun v hv => hit st now v hv, fun v hv hf hlt => ?_, fun v hv hf hlt => ?_⟩
  · rw [miss v hv hf]
    exact ⟨rfl, rfl, rfl, rfl, cacheGet_set_fresh _ _ _ _ _ _ hlt⟩
  · have hcache : cacheGet (fetch_with_cache n key f ttl now st).state.cache
        key now2 = some v := by
      rw [miss v hv hf]
      exact cacheGet_set_fresh _ _ _ _ _ _ hlt
    rw [hit (fetch_with_cache n key f ttl now st).state now2 v hcache]
    exact ⟨rfl, rfl, rfl, rfl⟩

theorem fetch_with_cache_cache_aside_witness :
    (fetch_with_cache 60 "finnhub:profile:AAPL"
        (fun _ => FetchOutcome.ok 42) 604800 1
        (fetch_with_cache 60 "finnhub:profile:AAPL"
          (fun _ => FetchOutcome.ok 42) 604800 0 (initState ℕ)).state).result
      = Except.ok (some 42)
    ∧ (fetch_with_cache 60 "finnhub:profile:AAPL"
        (fun _ => FetchOutcome.ok 42) 604800 1
        (fetch_with_cache 60 "finnhub:profile:AAPL"
          (fun _ => FetchOutcome.ok 42) 604800 0 (initState ℕ)).state).invocations
      = 0 := by
  have h := (fetch_with_cache_cache_aside 60 "finnhub:profile:AAPL"
    (fun _ => FetchOutcome.ok 42) 604800 0 1 (initState ℕ)
    (by norm_num)).2.2 42 rfl rfl (by norm_num)
  exact ⟨h.1, h.2.1⟩

/-- One retry-loop step on a retryable error (429, 500 or 503) consumes one
unit of budget and one fetch invocation. -/
theorem retryLoop_retry_step {α : Type} (f : ℕ → FetchOutcome α)
    (start fuel : ℕ)
    (h : f start = FetchOutcome.apiErr (some 429)
      ∨ f start = FetchOutcome.apiErr (some 500)
      ∨ f start = FetchOutcome.apiErr (some 503)) :
    retryLoop f start (fuel + 1)
      = ((retryLoop f (start + 1) fuel).1,
         (retryLoop f (start + 1) fuel).2 + 1) := by
  rcases h with h | h | h <;> simp [retryLoop, h]

/-- C6: the classified retry policy of `_fetch_with_cache` on the cache-miss
path.  A 401 propagates immediately after a single fetch invocation; a 404 is
neither retried nor propagated — the call returns the explicit no-data
(`None`) result after a single invocation and caches nothing; retryable
errors (429, 500, 503) are retried up to 3 attempts total, so a retryable
first attempt followed by a success yields the data on the second invocation;
and three retryable failures exhaust the budget and raise the
fetch-exhausted failure. -/
theorem fetch_with_cache_retry_policy {α : Type} (n : ℕ) (key : String)
    (f : ℕ → FetchOutcome α) (ttl : ℕ) (now : ℚ) (st : DPState α)
    (hmiss : ttl = 0 ∨ cacheGet st.cache key now = none) :
    (f 0 = FetchOutcome.apiErr (some 401) →
      (fetch_with_cache n key f ttl now st).result
        = Except.error FetchErr.authError
      ∧ (fetch_with_cache n key f ttl now st).invocations = 1)
    ∧ (f 0 = FetchOutcome.apiErr (some 404) →
      (fetch_with_cache n key f ttl now st).result = Except.ok none
      ∧ (fetch_with_cache n key f ttl now st).invocations = 1
      ∧ (fetch_with_cache n key f ttl now st).state.cache = st.cache)
    ∧ (∀ v, f 0 = FetchOutcome.apiErr (some 429) → f 1 = FetchOutcome.ok v →
      (fetch_with_cache n key f ttl now st).result = Except.ok (some v)
      ∧ (fetch_with_cache n key f ttl now st).invocations = 2)
    ∧ ((∀ i, i < 3 → f i = FetchOutcome.apiErr (some 429)
        ∨ f i = FetchOutcome.apiErr (some 500)
        ∨ f i = FetchOutcome.apiErr (some 503)) →
      (fetch_with_cache n key f ttl now st).result
        = Except.error FetchErr.exhausted
      ∧ (fetch_with_cache n key f ttl now st).invocations = 3) := by
  have hreduce : ∃ st' : DPState α, st'.cache = st.cache
      ∧ fetch_with_cache n key f ttl now st
        = fetch_with_cache_miss n key f ttl now st' := by
    rcases hmiss with h | h
    · exact ⟨st, rfl, by unfold fetch_with_cache; rw [if_neg (by omega)]⟩
    · by_cases httl : 0 < ttl
      · refine ⟨{ st with cache_misses := st.cache_misses + 1 }, rfl, ?_⟩
        unfold fetch_with_cache
        rw [if_pos httl, h]
      · exact ⟨st, rfl, by unfold fetch_with_cache; rw [if_neg httl]⟩
  obtain ⟨st', hcache, heq⟩ := hreduce
  rw [heq]
  refine ⟨fun h401 => ?_, fun h404 => ?_, fun v h429 hok => ?_, fun hall => ?_⟩
  · have hr : (retryLoop f 0 3).1 = Except.error FetchErr.authError
        ∧ (retryLoop f 0 3).2 = 1 := by
      constructor <;> simp [retryLoop, h401]
    exact ⟨(fetch_with_cache_miss_proj n key f ttl now st').1.trans hr.1,
      (fetch_with_cache_miss_proj n key f ttl now st').2.trans hr.2⟩
  · have hr : (retryLoop f 0 3).1 = Except.ok none
        ∧ (retryLoop f 0 3).2 = 1 := by
      constructor <;> simp [retryLoop, h404]
    refine ⟨(fetch_with_cache_miss_proj n key f ttl now st').1.trans hr.1,
      (fetch_with_cache_miss_proj n key f ttl now st').2.trans hr.2,
      ((fetch_with_cache_miss_cache n key f ttl now st') ?_).trans hcache⟩
    intro v hv
    rw [hr.1] at hv
    exact Option.noConfusion (Except.ok.inj hv)
  · have hr : (retryLoop f 0 3).1 = Except.ok (some v)
        ∧ (retryLoop f 0 3).2 = 2 := by
      constructor <;> simp [retryLoop, h429, hok]
    exact ⟨(fetch_with_cache_miss_proj n key f ttl now st').1.trans hr.1,
      (fetch_with_cache_miss_proj n key f ttl now st').2.trans hr.2⟩
  · have hr : (retryLoop f 0 3).1 = Except.error FetchErr.exhausted
        ∧ (retryLoop f 0 3).2 = 3 := by
      rcases hall 0 (by omega) with h0 | h0 | h0 <;>
        rcases hall 1 (by omega) with h1 | h1 | h1 <;>
        rcases hall 2 (by omega) with h2 | h2 | h2 <;>
        exact ⟨by simp [retryLoop, h0, h1, h2], by simp [retryLoop, h0, h1, h2]⟩
    exact ⟨(fetch_with_cache_miss_proj n key f ttl now st').1.trans hr.1,
      (fetch_with_cache_miss_proj n key f ttl now st').2.trans hr.2⟩

theorem fetch_with_cache_retry_policy_witness :
    (fetch_with_cache 60 "finnhub:financials:ZZZZ"
        (fun _ => FetchOutcome.apiErr (some 404)) 86400 0 (initState ℕ)).result
      = Except.ok none
    ∧ (fetch_with_cache 60 "finnhub:financials:ZZZZ"
        (fun _ => FetchOutcome.apiErr (some 404)) 86400 0 (initState ℕ)).invocations
      = 1
    ∧ (fetch_with_cache 60 "finnhub:financials:ZZZZ"
        (fun _ => FetchOutcome.apiErr (some 404)) 86400 0 (initState ℕ)).state.cache
      = (initState ℕ).cache :=
  (fetch_with_cache_retry_policy 60 "finnhub:financials:ZZZZ"
    (fun _ => FetchOutcome.apiErr (some 404)) 86400 0 (initState ℕ)
    (Or.inr rfl)).2.1 rfl

/-- C8: with fewer than 47 = 12+26+9 periods of history, `calculate_macd`
returns macd = signal = histogram = 0.0 exactly, without raising; and a NaN
intermediate in any of the three fields is coerced to 0.0. -/
theorem calculate_macd_short_history_defaults (close : List ℚ)
    (lib : List ℚ → Option ℚ × Option ℚ × Option ℚ) :
    (close.length < 47 → calculate_macd close lib = ⟨0, 0, 0⟩)
    ∧ ((lib close).1 = none → (calculate_macd close lib).macd = 0)
    ∧ ((lib close).2.1 = none → (calculate_macd close lib).signal = 0)
    ∧ ((lib close).2.2 = none → (calculate_macd close lib).histogram = 0) := by
  unfold calculate_macd
  dsimp only
  by_cases hlen : close.length < 47
  · rw [if_pos hlen]
    exact ⟨fun _ => rfl, fun _ => rfl, fun _ => rfl, fun _ => rfl⟩
  · rw [if_neg hlen]
    exact ⟨fun h => absurd h hlen, fun h => by simp [h], fun h => by simp [h],
      fun h => by simp [h]⟩

theorem calculate_macd_short_history_defaults_witness :
    calculate_macd ([] : List ℚ) (fun _ => (none, none, none)) = ⟨0, 0, 0⟩ :=
  (calculate_macd_short_history_defaults [] (fun _ => (none, none, none))).1
    (by decide)

/-- C9: on a 14-period flat price series the final-window average loss is
zero, but so is the average gain; the source has no special case for a zero
average loss, so `gain / loss` is the float `0 / 0` and the returned RSI is
NaN — not the claimed 100, and not a number in [0, 100].  (When the average
gain is positive the zero-loss division yields `inf` and the formula happens
to produce 100, as the strictly increasing series shows.) -/
theorem calculate_rsi_zero_loss_nan :
    calculate_rsi
        [100, 100, 100, 100, 100, 100, 100, 100, 100, 100, 100, 100, 100, 100]
        14
      = EF.nan
    ∧ calculate_rsi
        [1, 2, 3, 4, 5, 6, 7, 8, 9, 10, 11, 12, 13, 14, 15] 14
      = EF.num 100 := by
  constructor <;> norm_num [calculate_rsi, diffs, efDiv, rsiOfRs]
